import Mathlib

/-!
Shallow embedding of the `actix-request-hook` middleware
(`src/lib.rs`, `src/util.rs`, `src/observer.rs`).

Modelling conventions:
* Bytes are `Nat`; a body chunk is `List Nat`; the request payload stream is
  the finite sequence of chunk results the middleware reads with
  `payload.next().await` (src/lib.rs lines 180-182); a chunk result is
  `Except TransportError (List Nat)`, mirroring `Result<Bytes, PayloadError>`.
* Wall-clock instants (`Instant::now()`) are `Nat` parameters; Rust's
  `start.elapsed()` is truncated subtraction, matching the saturating
  semantics of `Instant` durations.
* `Uuid::new_v4()` is an opaque `Nat` parameter `request_id`: the middleware
  only copies it into the two notification records.
* Observers are identified by their registration index; the middleware's
  effects are recorded as a trace of events (observer notifications and the
  downstream handler invocation) in the order the code performs them.
* The external `regex` crate is modelled by its interface: a `RegexEngine`
  whose `compile` may fail (invalid pattern) and whose compiled matcher is a
  total `String → Bool` (`RegexSet::is_match` is infallible).
* `ServiceRequest.path` models actix-web's `ServiceRequest::path()`, which
  returns the URI path component only; the query string (kept in a separate
  field) is not part of it.  `ServiceRequest.uri` models
  `req.uri().to_string()`, the full request target.
-/

namespace ActixRequestHook

deriving instance DecidableEq for Except

/-- A transport-level error yielded by the body stream while draining
(models `PayloadError` inside the `Result` chunks of the payload stream). -/
structure TransportError where
  code : Nat
deriving DecidableEq, Repr

/-- The request payload as the finite sequence of chunk results read by
`payload.next().await` (src/lib.rs lines 180-182). -/
abbrev ChunkStream := List (Except TransportError (List Nat))

/-- Model of `actix_web::dev::ServiceRequest`: the fields the middleware
touches.  `path` is the URI path component as returned by `req.path()`
(actix-web returns the path without the query string); `query` is the query
part of the request target (empty when absent); `uri` below is their
concatenation, as produced by `req.uri().to_string()`. -/
structure ServiceRequest where
  path : String
  query : String
  method : String
  payload : ChunkStream
deriving DecidableEq, Repr

/-- Model of `req.uri().to_string()`: the full request target. -/
def ServiceRequest.uri (r : ServiceRequest) : String := r.path ++ r.query

/-- Model of a compiled `regex::RegexSet`: the pattern strings it was built
from together with the compiled total matching function (`is_match` on a
successfully compiled set never fails). -/
structure RegexSet where
  patterns : List String
  matcher : String → Bool

/-- Model of `RegexSet::empty()`: matches nothing. -/
def RegexSet.empty : RegexSet := ⟨[], fun _ => false⟩

/-- Model of `RegexSet::is_match`. -/
def RegexSet.is_match (rs : RegexSet) (s : String) : Bool := rs.matcher s

/-- Interface of the external `regex` crate's compiler: `compile` is
`RegexSet::new`, returning `none` exactly when some pattern has invalid
syntax, and otherwise the compiled total matcher of the set. -/
structure RegexEngine where
  compile : List String → Option (String → Bool)

/-- Model of `Inner` (src/lib.rs lines 119-123): the middleware
configuration.  The `HashSet<String>` of excluded paths is a list with
membership lookup; observers are identities in registration order. -/
structure Inner where
  exclude : List String
  exclude_regex : RegexSet
  observers : List Nat

/-- Model of `RequestHook` (src/lib.rs line 69). -/
structure RequestHook where
  inner : Inner

/-- Model of `RequestHook::new` (src/lib.rs lines 78-84). -/
def RequestHook.new : RequestHook := ⟨⟨[], RegexSet.empty, []⟩⟩

/-- Model of `RequestHook::exclude` (src/lib.rs lines 87-93):
`HashSet::insert` of the path. -/
def RequestHook.exclude (h : RequestHook) (path : String) : RequestHook :=
  if h.inner.exclude.contains path then h
  else ⟨{ h.inner with exclude := h.inner.exclude ++ [path] }⟩

/-- Model of `RequestHook::exclude_regex` (src/lib.rs lines 96-103): extend
the pattern list by the new pattern and recompile the whole set with
`RegexSet::new(patterns).unwrap()`.  The `unwrap` panic on invalid syntax is
modelled as `none`: a fatal construction-time failure. -/
def RequestHook.exclude_regex (eng : RegexEngine) (h : RequestHook)
    (pat : String) : Option RequestHook :=
  let patterns := h.inner.exclude_regex.patterns ++ [pat]
  match eng.compile patterns with
  | none => none
  | some m => some ⟨{ h.inner with exclude_regex := ⟨patterns, m⟩ }⟩

/-- Model of `RequestHook::register` (src/lib.rs lines 106-109): append the
observer. -/
def RequestHook.register (h : RequestHook) (obs : Nat) : RequestHook :=
  ⟨{ h.inner with observers := h.inner.observers ++ [obs] }⟩

/-- Model of the exclusion decision (src/lib.rs lines 164-165):
`self.inner.exclude.contains(req.path()) ||
 self.inner.exclude_regex.is_match(req.path())`. -/
def excluded (inner : Inner) (path : String) : Bool :=
  inner.exclude.contains path || inner.exclude_regex.is_match path

/-- Model of the drain loop (src/lib.rs lines 178-182):
`while let Some(chunk) = payload.next().await
   { body.extend_from_slice(chunk.unwrap().chunk()) }`.
Chunks are concatenated in arrival order; `chunk.unwrap()` panics on an
erroring chunk, modelled as `none`. -/
def drainBody : ChunkStream → Option (List Nat)
  | [] => some []
  | Except.error _ :: _ => none
  | Except.ok c :: rest => (drainBody rest).map (fun b => c ++ b)

/-- Model of `actix_http::h1::Payload`: an in-memory buffer of chunks
(front first) plus the eof flag. -/
structure H1Payload where
  items : List (List Nat)
  eof : Bool
deriving DecidableEq, Repr

/-- Model of `h1::Payload::create(eof)`: empty buffer with the given eof
flag (only the payload half is kept; the sender half is dropped). -/
def H1Payload.create (eof : Bool) : H1Payload := ⟨[], eof⟩

/-- Model of `PayloadSender::unread_data`: pushes the bytes to the front of
the buffer. -/
def H1Payload.unread_data (p : H1Payload) (data : List Nat) : H1Payload :=
  ⟨data :: p.items, p.eof⟩

/-- Model of `get_payload` (src/util.rs lines 5-9): create an eof payload
and unread the buffered bytes into it. -/
def get_payload (bytes : List Nat) : H1Payload :=
  (H1Payload.create true).unread_data bytes

/-- The chunk stream an `H1Payload` yields to a reader: each buffered item
in order, as a successful chunk, then end of stream.  (Valid for payloads
whose eof flag is set, which holds for every payload built by
`get_payload`; without eof the stream would suspend instead of ending.) -/
def H1Payload.asStream (p : H1Payload) : ChunkStream :=
  p.items.map Except.ok

/-- Model of `observer::RequestStartData` (src/observer.rs lines 17-23).
The borrowed `req` handle is not reproduced here; `body` is the fully
buffered byte sequence each observer receives. -/
structure RequestStartData where
  request_id : Nat
  uri : String
  method : String
  body : List Nat
deriving DecidableEq, Repr

/-- Model of `observer::RequestEndData` (src/observer.rs lines 34-40). -/
structure RequestEndData where
  request_id : Nat
  elapsed : Nat
  uri : String
  method : String
  status : Nat
deriving DecidableEq, Repr

/-- Model of a downstream success response: its status code and an opaque
content so that returning it "verbatim" is meaningful. -/
structure Response where
  status : Nat
  content : List Nat
deriving DecidableEq, Repr

/-- Model of `actix_web::Error` as returned by the downstream handler:
`status` is the host's error-to-status mapping
(`err.error_response().status()`, src/lib.rs line 204); `code` keeps the
error's identity. -/
structure Error where
  status : Nat
  code : Nat
deriving DecidableEq, Repr

/-- Model of the status extraction match (src/lib.rs lines 202-212). -/
def statusOf : Except Error Response → Nat
  | Except.error err => err.status
  | Except.ok r => r.status

/-- One observable step the middleware performs: a start notification to the
observer at a registration index, the downstream handler invocation (with
the request it actually receives), or an end notification. -/
inductive Event where
  | started (obs : Nat) (d : RequestStartData)
  | handler (req : ServiceRequest)
  | ended (obs : Nat) (d : RequestEndData)
deriving DecidableEq, Repr

/-- Model of the start fan-out loop (src/lib.rs lines 187-195): every
registered observer, in registration order, receives the start record. -/
def fanoutStarted (n : Nat) (d : RequestStartData) : List Event :=
  (List.range n).map (fun i => Event.started i d)

/-- Model of the end fan-out loop (src/lib.rs lines 213-221). -/
def fanoutEnded (n : Nat) (d : RequestEndData) : List Event :=
  (List.range n).map (fun i => Event.ended i d)

/-- How one call of the middleware terminates: `panicked` models the
`chunk.unwrap()` panic while draining (the request task aborts; no value is
returned through the service's `Result` channel); `completed res` models the
future resolving with `res`. -/
inductive Outcome where
  | panicked
  | completed (res : Except Error Response)
deriving DecidableEq, Repr

/-- Whether an outcome delivers any value (`Ok` or `Err`) through the
service's `Result` channel. -/
def Outcome.isCompleted : Outcome → Bool
  | Outcome.panicked => false
  | Outcome.completed _ => true

/-- Result of one middleware call: the trace of observable steps in the
order the code performs them, and the terminal outcome. -/
structure CallResult where
  trace : List Event
  outcome : Outcome
deriving DecidableEq, Repr

/-- Model of `RequestHookMiddleware::call` (src/lib.rs lines 161-227) for
one request.  `svc` is the downstream service, `startInstant` the
`Instant::now()` of line 172, `endInstant` the instant at line 200,
`request_id` the freshly generated `Uuid::new_v4()`.

Excluded branch (lines 166-168): the original request goes straight to the
downstream service and its result is returned verbatim; nothing else
happens.  Otherwise the payload is drained (panic on an erroring chunk),
cloned for the observers, repacked with `get_payload` and reattached via
`set_payload`; the start fan-out runs, then the handler, then the end
fan-out with elapsed time and the status of either outcome branch; finally
the untouched handler outcome is returned. -/
def call (inner : Inner) (svc : ServiceRequest → Except Error Response)
    (startInstant endInstant : Nat) (request_id : Nat)
    (req : ServiceRequest) : CallResult :=
  if excluded inner req.path then
    ⟨[Event.handler req], Outcome.completed (svc req)⟩
  else
    match drainBody req.payload with
    | none => ⟨[], Outcome.panicked⟩
    | some body =>
      let req2 : ServiceRequest := { req with payload := (get_payload body).asStream }
      let startD : RequestStartData := ⟨request_id, req.uri, req.method, body⟩
      let res := svc req2
      let endD : RequestEndData :=
        ⟨request_id, endInstant - startInstant, req.uri, req.method, statusOf res⟩
      ⟨fanoutStarted inner.observers.length startD
         ++ Event.handler req2 :: fanoutEnded inner.observers.length endD,
       Outcome.completed res⟩

/-- Number of start notifications delivered to the observer at registration
index `i` in a trace. -/
def startedCount (t : List Event) (i : Nat) : Nat :=
  (t.filter (fun ev => match ev with
    | Event.started j _ => j == i
    | _ => false)).length

/-- Number of end notifications delivered to the observer at registration
index `i` in a trace. -/
def endedCount (t : List Event) (i : Nat) : Nat :=
  (t.filter (fun ev => match ev with
    | Event.ended j _ => j == i
    | _ => false)).length

/-!
Buffer-aliasing model for the body copies handed out at lines 184-197 of
src/lib.rs.  `BytesMut` buffers live in a store indexed by allocation order;
`clone` on a `BytesMut` allocates a fresh buffer with the same content
(`BytesMut::clone` copies the data), and `freeze` turns the buffer's content
into an immutable `Bytes` value that no longer lives in the mutable store.
-/

/-- A heap of `BytesMut` buffers, indexed by allocation order. -/
structure BufStore where
  bufs : List (List Nat)
deriving DecidableEq, Repr

/-- Read the content of a buffer. -/
def BufStore.read (s : BufStore) (id : Nat) : List Nat := s.bufs.getD id []

/-- Allocate a fresh buffer holding `c`; returns the new store and the fresh
buffer's id. -/
def BufStore.alloc (s : BufStore) (c : List Nat) : BufStore × Nat :=
  (⟨s.bufs ++ [c]⟩, s.bufs.length)

/-- Overwrite the content of one buffer (an observer mutating the
`BytesMut` copy it was handed). -/
def BufStore.write (s : BufStore) (id : Nat) (c : List Nat) : BufStore :=
  ⟨s.bufs.set id c⟩

/-- Allocate `n` independent clones of the same content, in order (the
`handler_body.clone()` performed once per observer in the start fan-out
loop, src/lib.rs line 193). -/
def cloneMany : Nat → BufStore → List Nat → BufStore × List Nat
  | 0, s, _ => (s, [])
  | Nat.succ k, s, c =>
    let p := s.alloc c
    let q := cloneMany k p.1 c
    (q.1, p.2 :: q.2)

/-- Result of distributing the drained body (src/lib.rs lines 184-197):
the final buffer store, the id of the drained `body` buffer, the id of
`handler_body`, the ids of the per-observer clones in registration order,
and the immutable `Bytes` content frozen for `get_payload`. -/
structure Distributed where
  store : BufStore
  bodyId : Nat
  handlerBodyId : Nat
  observerBufs : List Nat
  frozenPayload : List Nat
deriving DecidableEq, Repr

/-- Model of src/lib.rs lines 178-197 at the buffer level: allocate the
drained `body` buffer, clone it into `handler_body`, freeze `body`'s
content for `get_payload(body.freeze())`, then clone `handler_body` once
per observer for the start records. -/
def distributeBody (body : List Nat) (n : Nat) : Distributed :=
  let pBody := BufStore.alloc ⟨[]⟩ body
  let pHandler := pBody.1.alloc (pBody.1.read pBody.2)
  let frozen := pHandler.1.read pBody.2
  let pObs := cloneMany n pHandler.1 (pHandler.1.read pHandler.2)
  ⟨pObs.1, pBody.2, pHandler.2, pObs.2, frozen⟩

/-!
Concrete sample values used by the witness theorems.
-/

/-- Sample matcher standing for one compiled regular expression set. -/
def sampleMatcher : String → Bool := fun s => s == "/42"

/-- Sample regex engine: rejects pattern lists containing the (invalid)
pattern `"("`, and compiles every other list to `sampleMatcher`. -/
def sampleEngine : RegexEngine :=
  ⟨fun pats => if pats.contains "(" then none else some sampleMatcher⟩

/-- Sample configuration: excludes the exact path `/bye` and paths matched
by `sampleMatcher`; two observers registered. -/
def sampleInner : Inner := ⟨["/bye"], ⟨["^/42$"], sampleMatcher⟩, [7, 8]⟩

/-- Sample downstream service: answers 200 with the concatenation of the
body it reads from the request's payload, or 500 if reading the payload
fails. -/
def sampleSvc : ServiceRequest → Except Error Response := fun r =>
  match drainBody r.payload with
  | some b => Except.ok ⟨200, b⟩
  | none => Except.error ⟨500, 1⟩

/-- Sample downstream service that always fails with a 503-mapped error. -/
def failFiveOhThree : ServiceRequest → Except Error Response :=
  fun _ => Except.error ⟨503, 9⟩

/-- Sample non-excluded request with a two-chunk body. -/
def heyReq : ServiceRequest := ⟨"/hey", "", "POST", [Except.ok [1, 2], Except.ok [3]]⟩

/-- Sample non-excluded request with an empty body (no chunks at all). -/
def emptyBodyReq : ServiceRequest := ⟨"/hey", "", "GET", []⟩

/-- Sample excluded request. -/
def byeReq : ServiceRequest := ⟨"/bye", "", "GET", [Except.ok [5]]⟩

/-- Sample request whose body stream fails on its second chunk. -/
def errReq : ServiceRequest :=
  ⟨"/hey", "", "POST", [Except.ok [1], Except.error ⟨3⟩]⟩

/-- Configuration used to exhibit the exclusion-matching behaviour on
queries, trailing slashes and case: excludes exactly `/bye`. -/
def cfgC8 : Inner := ⟨["/bye"], RegexSet.empty, []⟩

/-- A request whose full target `/bye?debug=1` carries a query string but
whose path component is `/bye`. -/
def byeQueryReq : ServiceRequest := ⟨"/bye", "?debug=1", "GET", []⟩

/-!
Helper lemmas shared by the claim theorems.
-/

/-- Draining a stream that contains an erroring chunk hits `chunk.unwrap()`
and panics (src/lib.rs line 181). -/
theorem drainBody_isNone_of_error (s : ChunkStream) (te : TransportError)
    (h : Except.error te ∈ s) : drainBody s = none := by
  induction s with
  | nil => simp at h
  | cons hd tl ih =>
    cases hd with
    | error x => simp [drainBody]
    | ok c =>
      have htl : Except.error te ∈ tl := by
        rcases List.mem_cons.mp h with h1 | h1
        · cases h1
        · exact h1
      rw [drainBody, ih htl]
      rfl

/-- Reading out the payload produced by `get_payload bytes` yields exactly
`bytes`: the repackaged stream is the one-chunk stream holding the whole
buffer, already complete. -/
theorem drainBody_get_payload (bytes : List Nat) :
    drainBody ((get_payload bytes).asStream) = some bytes := by
  simp [get_payload, H1Payload.create, H1Payload.unread_data, H1Payload.asStream,
    drainBody]

/-- The trace of a non-excluded, successfully drained request, read off the
middleware model: start fan-out, handler invocation with the repackaged
payload, end fan-out. -/
theorem call_trace_of_drained (inner : Inner)
    (svc : ServiceRequest → Except Error Response)
    (startInstant endInstant request_id : Nat) (req : ServiceRequest)
    (b : List Nat) (hex : excluded inner req.path = false)
    (hdrain : drainBody req.payload = some b) :
    call inner svc startInstant endInstant request_id req =
      ⟨fanoutStarted inner.observers.length ⟨request_id, req.uri, req.method, b⟩
         ++ Event.handler { req with payload := (get_payload b).asStream }
           :: fanoutEnded inner.observers.length
                ⟨request_id, endInstant - startInstant, req.uri, req.method,
                 statusOf (svc { req with payload := (get_payload b).asStream })⟩,
       Outcome.completed (svc { req with payload := (get_payload b).asStream })⟩ := by
  simp [call, hex, hdrain]

/-- Splitting a start-notification count across an append. -/
theorem startedCount_append (a b : List Event) (i : Nat) :
    startedCount (a ++ b) i = startedCount a i + startedCount b i := by
  simp [startedCount, List.filter_append]

/-- Splitting an end-notification count across an append. -/
theorem endedCount_append (a b : List Event) (i : Nat) :
    endedCount (a ++ b) i = endedCount a i + endedCount b i := by
  simp [endedCount, List.filter_append]

/-- Each observer index receives exactly one notification from the start
fan-out, and indices outside the registry receive none. -/
theorem startedCount_fanoutStarted (n i : Nat) (d : RequestStartData) :
    startedCount (fanoutStarted n d) i = if i < n then 1 else 0 := by
  induction n with
  | zero => simp [fanoutStarted, startedCount]
  | succ k ih =>
    have hsplit : fanoutStarted (k + 1) d
        = fanoutStarted k d ++ [Event.started k d] := by
      simp [fanoutStarted, List.range_succ]
    rw [hsplit, startedCount_append, ih]
    by_cases hk : k = i
    · subst hk
      simp [startedCount]
    · have hone : startedCount [Event.started k d] i = 0 := by
        simp [startedCount, hk]
      rw [hone]
      by_cases hik : i < k
      · simp [hik, Nat.lt_succ_of_lt hik]
      · have : ¬ i < k + 1 := by omega
        simp [hik, this]

/-- Each observer index receives exactly one notification from the end
fan-out, and indices outside the registry receive none. -/
theorem endedCount_fanoutEnded (n i : Nat) (d : RequestEndData) :
    endedCount (fanoutEnded n d) i = if i < n then 1 else 0 := by
  induction n with
  | zero => simp [fanoutEnded, endedCount]
  | succ k ih =>
    have hsplit : fanoutEnded (k + 1) d
        = fanoutEnded k d ++ [Event.ended k d] := by
      simp [fanoutEnded, List.range_succ]
    rw [hsplit, endedCount_append, ih]
    by_cases hk : k = i
    · subst hk
      simp [endedCount]
    · have hone : endedCount [Event.ended k d] i = 0 := by
        simp [endedCount, hk]
      rw [hone]
      by_cases hik : i < k
      · simp [hik, Nat.lt_succ_of_lt hik]
      · have : ¬ i < k + 1 := by omega
        simp [hik, this]

/-- The end fan-out delivers no start notifications. -/
theorem startedCount_fanoutEnded (n i : Nat) (d : RequestEndData) :
    startedCount (fanoutEnded n d) i = 0 := by
  induction n with
  | zero => simp [fanoutEnded, startedCount]
  | succ k ih =>
    have hsplit : fanoutEnded (k + 1) d
        = fanoutEnded k d ++ [Event.ended k d] := by
      simp [fanoutEnded, List.range_succ]
    rw [hsplit, startedCount_append, ih]
    simp [startedCount]

/-- The start fan-out delivers no end notifications. -/
theorem endedCount_fanoutStarted (n i : Nat) (d : RequestStartData) :
    endedCount (fanoutStarted n d) i = 0 := by
  induction n with
  | zero => simp [fanoutStarted, endedCount]
  | succ k ih =>
    have hsplit : fanoutStarted (k + 1) d
        = fanoutStarted k d ++ [Event.started k d] := by
      simp [fanoutStarted, List.range_succ]
    rw [hsplit, endedCount_append, ih]
    simp [endedCount]

/-- Membership of a start notification in the start fan-out. -/
theorem mem_fanoutStarted (i n : Nat) (d d0 : RequestStartData) :
    Event.started i d ∈ fanoutStarted n d0 ↔ i < n ∧ d = d0 := by
  simp only [fanoutStarted, List.mem_map, List.mem_range, Event.started.injEq]
  constructor
  · rintro ⟨a, ha, rfl, rfl⟩
    exact ⟨ha, rfl⟩
  · rintro ⟨h1, rfl⟩
    exact ⟨i, h1, rfl, rfl⟩

/-- Membership of an end notification in the end fan-out. -/
theorem mem_fanoutEnded (i n : Nat) (d d0 : RequestEndData) :
    Event.ended i d ∈ fanoutEnded n d0 ↔ i < n ∧ d = d0 := by
  simp only [fanoutEnded, List.mem_map, List.mem_range, Event.ended.injEq]
  constructor
  · rintro ⟨a, ha, rfl, rfl⟩
    exact ⟨ha, rfl⟩
  · rintro ⟨h1, rfl⟩
    exact ⟨i, h1, rfl, rfl⟩

/-- Start notifications never occur in the end fan-out. -/
theorem started_not_mem_fanoutEnded (i n : Nat) (d : RequestStartData)
    (d0 : RequestEndData) : Event.started i d ∉ fanoutEnded n d0 := by
  simp [fanoutEnded]

/-- End notifications never occur in the start fan-out. -/
theorem ended_not_mem_fanoutStarted (i n : Nat) (d : RequestEndData)
    (d0 : RequestStartData) : Event.ended i d ∉ fanoutStarted n d0 := by
  simp [fanoutStarted]

/-- Unfolding of `cloneMany`: `n` clones extend the store by `n` copies of
the content and hand out the `n` fresh ids in allocation order. -/
theorem cloneMany_spec (n : Nat) (s : BufStore) (c : List Nat) :
    cloneMany n s c
      = (⟨s.bufs ++ List.replicate n c⟩,
         (List.range n).map (fun k => s.bufs.length + k)) := by
  induction n generalizing s with
  | zero => simp [cloneMany]
  | succ k ih =>
    have h1 : (s.bufs ++ [c]) ++ List.replicate k c
        = s.bufs ++ List.replicate (k + 1) c := by
      rw [List.append_assoc, List.singleton_append, ← List.replicate_succ]
    have h2 : s.bufs.length :: (List.range k).map (fun t => (s.bufs ++ [c]).length + t)
        = (List.range (k + 1)).map (fun t => s.bufs.length + t) := by
      rw [List.range_succ_eq_map, List.map_cons, List.map_map]
      congr 1
      apply List.map_congr_left
      intro a _
      simp [List.length_append]
      omega
    simp only [cloneMany, BufStore.alloc, ih]
    rw [h1, h2]

/-- Concrete shape of the distributed buffers: the store holds the drained
`body` buffer (id 0), the `handler_body` clone (id 1) and one independent
clone per observer (ids `2, 3, ...`), all with the drained content; the
frozen payload is the drained content. -/
theorem distributeBody_spec (body : List Nat) (n : Nat) :
    distributeBody body n
      = ⟨⟨body :: body :: List.replicate n body⟩, 0, 1,
         (List.range n).map (fun k => 2 + k), body⟩ := by
  simp [distributeBody, BufStore.alloc, BufStore.read, cloneMany_spec]

/-- Reading a position of a range map. -/
theorem getD_map_range (n j : Nat) (f : Nat → Nat) (x : Nat) (hj : j < n) :
    ((List.range n).map f).getD j x = f j := by
  rw [List.getD_eq_getElem?_getD, List.getElem?_map, List.getElem?_range hj]
  rfl

/-- Writing one buffer leaves every other buffer unchanged. -/
theorem read_write_ne (s : BufStore) (i j : Nat) (c : List Nat) (h : i ≠ j) :
    (s.write i c).read j = s.read j := by
  simp only [BufStore.write, BufStore.read]
  rw [List.getD_eq_getElem?_getD, List.getD_eq_getElem?_getD,
    List.getElem?_set_ne h]

/-- C1: for every non-excluded request, the downstream handler receives a
body byte-for-byte identical to the original inbound body: the middleware
invokes the handler with the request carrying the `get_payload` repack of
the drained bytes, and reading that repacked stream out yields exactly the
drained bytes (the empty body drains to `[]` and yields an empty but valid
stream, covered by `b = []`). -/
theorem C1_body_roundtrip (inner : Inner)
    (svc : ServiceRequest → Except Error Response)
    (startInstant endInstant request_id : Nat) (req : ServiceRequest)
    (b : List Nat) (hex : excluded inner req.path = false)
    (hdrain : drainBody req.payload = some b) :
    Event.handler { req with payload := (get_payload b).asStream }
        ∈ (call inner svc startInstant endInstant request_id req).trace
    ∧ drainBody ((get_payload b).asStream) = some b := by
  refine ⟨?_, drainBody_get_payload b⟩
  rw [call_trace_of_drained inner svc startInstant endInstant request_id req b hex hdrain]
  simp

/-- Witness for C1 at the empty-body request: the hypotheses hold and the
handler receives a stream reading out to the original (empty) bytes. -/
theorem C1_witness :
    excluded sampleInner emptyBodyReq.path = false
    ∧ drainBody emptyBodyReq.payload = some []
    ∧ (Event.handler { emptyBodyReq with payload := (get_payload []).asStream }
         ∈ (call sampleInner sampleSvc 0 5 42 emptyBodyReq).trace
       ∧ drainBody ((get_payload []).asStream) = some []) :=
  ⟨by decide, by decide,
   C1_body_roundtrip sampleInner sampleSvc 0 5 42 emptyBodyReq []
     (by decide) (by decide)⟩

/-- C2: a request whose path is in the excluded set or matches the compiled
regex set goes straight to the downstream service: the original untouched
request is passed on, the service's result is returned verbatim, the trace
holds no observer notification, and the outcome does not depend on the
request identifier or the captured instants (they are arbitrary here and
absent from the right-hand side). -/
theorem C2_passthrough (inner : Inner)
    (svc : ServiceRequest → Except Error Response)
    (startInstant endInstant request_id : Nat) (req : ServiceRequest)
    (hex : excluded inner req.path = true) :
    call inner svc startInstant endInstant request_id req
      = ⟨[Event.handler req], Outcome.completed (svc req)⟩ := by
  simp [call, hex]

/-- Witness for C2 at the excluded `/bye` request. -/
theorem C2_witness :
    excluded sampleInner byeReq.path = true
    ∧ call sampleInner sampleSvc 0 5 42 byeReq
        = ⟨[Event.handler byeReq], Outcome.completed (sampleSvc byeReq)⟩ :=
  ⟨by decide, C2_passthrough sampleInner sampleSvc 0 5 42 byeReq (by decide)⟩

/-- C3: for every non-excluded request (with a successfully drained body)
the trace is the start fan-out in registration order, the handler call, and
the end fan-out in registration order; every registered observer receives
exactly one start and exactly one end notification, and every notification
in the trace carries the generated request identifier. -/
theorem C3_fanout_pairing (inner : Inner)
    (svc : ServiceRequest → Except Error Response)
    (startInstant endInstant request_id : Nat) (req : ServiceRequest)
    (b : List Nat) (hex : excluded inner req.path = false)
    (hdrain : drainBody req.payload = some b) :
    (call inner svc startInstant endInstant request_id req).trace
      = fanoutStarted inner.observers.length ⟨request_id, req.uri, req.method, b⟩
        ++ Event.handler { req with payload := (get_payload b).asStream }
          :: fanoutEnded inner.observers.length
               ⟨request_id, endInstant - startInstant, req.uri, req.method,
                statusOf (svc { req with payload := (get_payload b).asStream })⟩
    ∧ (∀ i, i < inner.observers.length →
         startedCount (call inner svc startInstant endInstant request_id req).trace i = 1
         ∧ endedCount (call inner svc startInstant endInstant request_id req).trace i = 1)
    ∧ (∀ i d, Event.started i d
          ∈ (call inner svc startInstant endInstant request_id req).trace →
        d.request_id = request_id)
    ∧ (∀ i d, Event.ended i d
          ∈ (call inner svc startInstant endInstant request_id req).trace →
        d.request_id = request_id) := by
  have htr := call_trace_of_drained inner svc startInstant endInstant request_id req b hex hdrain
  have htrace : (call inner svc startInstant endInstant request_id req).trace
      = fanoutStarted inner.observers.length ⟨request_id, req.uri, req.method, b⟩
        ++ Event.handler { req with payload := (get_payload b).asStream }
          :: fanoutEnded inner.observers.length
               ⟨request_id, endInstant - startInstant, req.uri, req.method,
                statusOf (svc { req with payload := (get_payload b).asStream })⟩ := by
    rw [htr]
  refine ⟨htrace, ?_, ?_, ?_⟩
  · intro i hi
    rw [htrace]
    have hmid : Event.handler { req with payload := (get_payload b).asStream }
        :: fanoutEnded inner.observers.length
             ⟨request_id, endInstant - startInstant, req.uri, req.method,
              statusOf (svc { req with payload := (get_payload b).asStream })⟩
        = [Event.handler { req with payload := (get_payload b).asStream }]
          ++ fanoutEnded inner.observers.length
               ⟨request_id, endInstant - startInstant, req.uri, req.method,
                statusOf (svc { req with payload := (get_payload b).asStream })⟩ := rfl
    rw [hmid, startedCount_append, startedCount_append,
      endedCount_append, endedCount_append,
      startedCount_fanoutStarted, endedCount_fanoutEnded,
      startedCount_fanoutEnded, endedCount_fanoutStarted]
    constructor
    · simp [startedCount, hi]
    · simp [endedCount, hi]
  · intro i d hmem
    rw [htrace] at hmem
    rcases List.mem_append.mp hmem with hmem | hmem
    · exact congrArg RequestStartData.request_id ((mem_fanoutStarted i _ d _).mp hmem).2
    · rcases List.mem_cons.mp hmem with hmem | hmem
      · cases hmem
      · exact absurd hmem (started_not_mem_fanoutEnded i _ d _)
  · intro i d hmem
    rw [htrace] at hmem
    rcases List.mem_append.mp hmem with hmem | hmem
    · exact absurd hmem (ended_not_mem_fanoutStarted i _ d _)
    · rcases List.mem_cons.mp hmem with hmem | hmem
      · cases hmem
      · exact congrArg RequestEndData.request_id ((mem_fanoutEnded i _ d _).mp hmem).2

/-- Witness for C3 at a two-observer configuration and a two-chunk body:
both observers get exactly one start and one end notification. -/
theorem C3_witness :
    excluded sampleInner heyReq.path = false
    ∧ drainBody heyReq.payload = some [1, 2, 3]
    ∧ startedCount (call sampleInner sampleSvc 0 5 42 heyReq).trace 0 = 1
    ∧ endedCount (call sampleInner sampleSvc 0 5 42 heyReq).trace 0 = 1
    ∧ startedCount (call sampleInner sampleSvc 0 5 42 heyReq).trace 1 = 1
    ∧ endedCount (call sampleInner sampleSvc 0 5 42 heyReq).trace 1 = 1 :=
  ⟨by decide, by decide,
   ((C3_fanout_pairing sampleInner sampleSvc 0 5 42 heyReq [1, 2, 3]
       (by decide) (by decide)).2.1 0 (by decide)).1,
   ((C3_fanout_pairing sampleInner sampleSvc 0 5 42 heyReq [1, 2, 3]
       (by decide) (by decide)).2.1 0 (by decide)).2,
   ((C3_fanout_pairing sampleInner sampleSvc 0 5 42 heyReq [1, 2, 3]
       (by decide) (by decide)).2.1 1 (by decide)).1,
   ((C3_fanout_pairing sampleInner sampleSvc 0 5 42 heyReq [1, 2, 3]
       (by decide) (by decide)).2.1 1 (by decide)).2⟩

/-- C4 counterexample: at a concrete non-excluded request whose body stream
errors on its second chunk, the middleware's drain loop hits
`chunk.unwrap()` (src/lib.rs line 181) and panics: the call aborts with no
events delivered, and no value — in particular no error value — is
completed through the service's `Result` channel, so the failure is not
"reported to the server's standard error channel as a request failure" as
the claim states. -/
theorem C4_counterexample :
    excluded sampleInner errReq.path = false
    ∧ call sampleInner sampleSvc 0 5 42 errReq = ⟨[], Outcome.panicked⟩
    ∧ (call sampleInner sampleSvc 0 5 42 errReq).outcome.isCompleted = false := by
  refine ⟨by decide, by decide, by decide⟩

/-- C4 (amended): if the body stream yields a read error during draining of
a non-excluded request, the request aborts before any start notification is
delivered and before the downstream handler is invoked (empty trace, no
partial delivery); the failure is the `unwrap` panic that terminates the
request task, not an error value returned through the service's standard
error channel. -/
theorem C4_drain_error_aborts (inner : Inner)
    (svc : ServiceRequest → Except Error Response)
    (startInstant endInstant request_id : Nat) (req : ServiceRequest)
    (te : TransportError) (hex : excluded inner req.path = false)
    (herr : Except.error te ∈ req.payload) :
    call inner svc startInstant endInstant request_id req
      = ⟨[], Outcome.panicked⟩ := by
  have hd : drainBody req.payload = none := drainBody_isNone_of_error req.payload te herr
  simp [call, hex, hd]

/-- Witness for the amended C4 at the erroring-chunk request. -/
theorem C4_witness :
    excluded sampleInner errReq.path = false
    ∧ Except.error (⟨3⟩ : TransportError) ∈ errReq.payload
    ∧ call sampleInner sampleSvc 0 5 42 errReq = ⟨[], Outcome.panicked⟩ :=
  ⟨by decide, by decide,
   C4_drain_error_aborts sampleInner sampleSvc 0 5 42 errReq ⟨3⟩
     (by decide) (by decide)⟩

/-- C5: when the downstream handler fails on a non-excluded request, every
end notification carries the status of the host's error-to-status mapping
(`err.error_response().status()`, modelled by the error's `status` field),
and the original error value is completed to the caller unchanged. -/
theorem C5_handler_error (inner : Inner)
    (svc : ServiceRequest → Except Error Response)
    (startInstant endInstant request_id : Nat) (req : ServiceRequest)
    (b : List Nat) (err : Error) (hex : excluded inner req.path = false)
    (hdrain : drainBody req.payload = some b)
    (herr : svc { req with payload := (get_payload b).asStream }
      = Except.error err) :
    (call inner svc startInstant endInstant request_id req).outcome
      = Outcome.completed (Except.error err)
    ∧ (∀ i d, Event.ended i d
          ∈ (call inner svc startInstant endInstant request_id req).trace →
        d.status = err.status) := by
  have htr := call_trace_of_drained inner svc startInstant endInstant request_id req b hex hdrain
  constructor
  · rw [htr]
    simp [herr]
  · intro i d hmem
    rw [htr] at hmem
    simp only at hmem
    rcases List.mem_append.mp hmem with hmem | hmem
    · exact absurd hmem (ended_not_mem_fanoutStarted i _ d _)
    · rcases List.mem_cons.mp hmem with hmem | hmem
      · cases hmem
      · have hd := ((mem_fanoutEnded i _ d _).mp hmem).2
        rw [hd, herr]
        rfl

/-- Witness for C5: a handler failing with a 503-mapped error on a concrete
request. -/
theorem C5_witness :
    excluded sampleInner heyReq.path = false
    ∧ drainBody heyReq.payload = some [1, 2, 3]
    ∧ failFiveOhThree { heyReq with payload := (get_payload [1, 2, 3]).asStream }
        = Except.error ⟨503, 9⟩
    ∧ ((call sampleInner failFiveOhThree 0 5 42 heyReq).outcome
         = Outcome.completed (Except.error ⟨503, 9⟩)
       ∧ (∀ i d, Event.ended i d
             ∈ (call sampleInner failFiveOhThree 0 5 42 heyReq).trace →
           d.status = (⟨503, 9⟩ : Error).status)) :=
  ⟨by decide, by decide, rfl,
   C5_handler_error sampleInner failFiveOhThree 0 5 42 heyReq [1, 2, 3]
     ⟨503, 9⟩ (by decide) (by decide) rfl⟩

/-- C6: within one non-excluded request, the trace splits as a block of
start notifications, then the single handler invocation, then a block of
end notifications: the whole start fan-out precedes the handler call, and
the handler call precedes the whole end fan-out. -/
theorem C6_ordering (inner : Inner)
    (svc : ServiceRequest → Except Error Response)
    (startInstant endInstant request_id : Nat) (req : ServiceRequest)
    (b : List Nat) (hex : excluded inner req.path = false)
    (hdrain : drainBody req.payload = some b) :
    ∃ pre post,
      (call inner svc startInstant endInstant request_id req).trace
        = pre ++ Event.handler { req with payload := (get_payload b).asStream } :: post
      ∧ (∀ ev ∈ pre, ∃ i d, ev = Event.started i d)
      ∧ (∀ ev ∈ post, ∃ i d, ev = Event.ended i d) := by
  have htr := call_trace_of_drained inner svc startInstant endInstant request_id req b hex hdrain
  refine ⟨fanoutStarted inner.observers.length ⟨request_id, req.uri, req.method, b⟩,
    fanoutEnded inner.observers.length
      ⟨request_id, endInstant - startInstant, req.uri, req.method,
       statusOf (svc { req with payload := (get_payload b).asStream })⟩,
    ?_, ?_, ?_⟩
  · rw [htr]
  · intro ev hev
    rcases List.mem_map.mp hev with ⟨a, _, hae⟩
    exact ⟨a, _, hae.symm⟩
  · intro ev hev
    rcases List.mem_map.mp hev with ⟨a, _, hae⟩
    exact ⟨a, _, hae.symm⟩

/-- Witness for C6 at a concrete request. -/
theorem C6_witness :
    excluded sampleInner heyReq.path = false
    ∧ drainBody heyReq.payload = some [1, 2, 3]
    ∧ (∃ pre post,
        (call sampleInner sampleSvc 0 5 42 heyReq).trace
          = pre ++ Event.handler { heyReq with payload := (get_payload [1, 2, 3]).asStream } :: post
        ∧ (∀ ev ∈ pre, ∃ i d, ev = Event.started i d)
        ∧ (∀ ev ∈ post, ∃ i d, ev = Event.ended i d)) :=
  ⟨by decide, by decide,
   C6_ordering sampleInner sampleSvc 0 5 42 heyReq [1, 2, 3]
     (by decide) (by decide)⟩

/-- C7: `exclude_regex` recompiles the whole pattern list and calls
`unwrap` on the result (src/lib.rs lines 96-103), so an invalid pattern is
a fatal construction-time failure; a valid pattern yields a configuration
storing the compiled set, and the request-time exclusion decision only
applies the already-compiled total matcher (the external set's infallible
`is_match`), so matching never fails for a successfully built
configuration. -/
theorem C7_regex_build (eng : RegexEngine) (h : RequestHook)
    (patBad patGood : String) (m : String → Bool)
    (hbad : eng.compile (h.inner.exclude_regex.patterns ++ [patBad]) = none)
    (hgood : eng.compile (h.inner.exclude_regex.patterns ++ [patGood]) = some m) :
    RequestHook.exclude_regex eng h patBad = none
    ∧ RequestHook.exclude_regex eng h patGood
        = some ⟨{ h.inner with
            exclude_regex := ⟨h.inner.exclude_regex.patterns ++ [patGood], m⟩ }⟩
    ∧ (∀ p, excluded { h.inner with
          exclude_regex := ⟨h.inner.exclude_regex.patterns ++ [patGood], m⟩ } p
        = (h.inner.exclude.contains p || m p)) := by
  refine ⟨?_, ?_, ?_⟩
  · simp [RequestHook.exclude_regex, hbad]
  · simp [RequestHook.exclude_regex, hgood]
  · intro p
    simp [excluded, RegexSet.is_match]

/-- Witness for C7: the sample engine rejects the pattern `(` at build time
and compiles `^/42$`, after which matching is the compiled matcher. -/
theorem C7_witness :
    sampleEngine.compile (RequestHook.new.inner.exclude_regex.patterns ++ ["("]) = none
    ∧ sampleEngine.compile (RequestHook.new.inner.exclude_regex.patterns ++ ["^/42$"])
        = some sampleMatcher
    ∧ (RequestHook.exclude_regex sampleEngine RequestHook.new "(" = none
       ∧ RequestHook.exclude_regex sampleEngine RequestHook.new "^/42$"
           = some ⟨{ RequestHook.new.inner with
               exclude_regex :=
                 ⟨RequestHook.new.inner.exclude_regex.patterns ++ ["^/42$"],
                  sampleMatcher⟩ }⟩
       ∧ (∀ p, excluded { RequestHook.new.inner with
             exclude_regex :=
               ⟨RequestHook.new.inner.exclude_regex.patterns ++ ["^/42$"],
                sampleMatcher⟩ } p
           = (RequestHook.new.inner.exclude.contains p || sampleMatcher p))) :=
  ⟨rfl, rfl,
   C7_regex_build sampleEngine RequestHook.new "(" "^/42$" sampleMatcher rfl rfl⟩

/-- C8 counterexample: the matcher never sees the query string.  The server
hands the middleware `req.path()` — the path component only — so the
request for `/bye?debug=1` (full target differing from the excluded string
`/bye`) is nonetheless excluded, and its exclusion decision coincides with
that of the query-less `/bye` request: query strings are not significant in
either check, contradicting the claim. -/
theorem C8_counterexample :
    byeQueryReq.uri = "/bye?debug=1"
    ∧ byeQueryReq.uri ≠ "/bye"
    ∧ excluded cfgC8 byeQueryReq.path = true
    ∧ excluded cfgC8 (ServiceRequest.mk "/bye" "" "GET" []).path
        = excluded cfgC8 byeQueryReq.path := by
  refine ⟨by decide, by decide, by decide, by decide⟩

/-- C8 (amended): exclusion matching operates on the request's path
component exactly as the server provides it, with no normalization —
trailing slashes and case are significant — but the query string is not
part of the matched text: requests differing only in query string (and in
any other non-path field) receive identical exclusion decisions. -/
theorem C8_path_only_no_normalization (inner : Inner) (p q1 q2 m1 m2 : String)
    (pl1 pl2 : ChunkStream) :
    excluded inner (ServiceRequest.mk p q1 m1 pl1).path
      = excluded inner (ServiceRequest.mk p q2 m2 pl2).path
    ∧ excluded cfgC8 "/bye" = true
    ∧ excluded cfgC8 "/bye/" = false
    ∧ excluded cfgC8 "/BYE" = false :=
  ⟨rfl, by decide, by decide, by decide⟩

/-- C9: for a non-excluded request the end notifications carry
`elapsed = endInstant - startInstant`, the difference of the two captured
instants (Rust's saturating `Instant` subtraction is `Nat` truncated
subtraction); under clock monotonicity it is exactly the signed difference
and is non-negative. -/
theorem C9_elapsed_nonneg (inner : Inner)
    (svc : ServiceRequest → Except Error Response)
    (startInstant endInstant request_id : Nat) (req : ServiceRequest)
    (b : List Nat) (hex : excluded inner req.path = false)
    (hdrain : drainBody req.payload = some b)
    (hmono : startInstant ≤ endInstant) :
    ∀ i d, Event.ended i d
        ∈ (call inner svc startInstant endInstant request_id req).trace →
      d.elapsed = endInstant - startInstant
      ∧ (d.elapsed : Int) = (endInstant : Int) - (startInstant : Int)
      ∧ 0 ≤ (d.elapsed : Int) := by
  have htr := call_trace_of_drained inner svc startInstant endInstant request_id req b hex hdrain
  intro i d hmem
  rw [htr] at hmem
  simp only at hmem
  rcases List.mem_append.mp hmem with hmem | hmem
  · exact absurd hmem (ended_not_mem_fanoutStarted i _ d _)
  · rcases List.mem_cons.mp hmem with hmem | hmem
    · cases hmem
    · have hd := ((mem_fanoutEnded i _ d _).mp hmem).2
      subst hd
      exact ⟨rfl, Nat.cast_sub hmono, Nat.cast_nonneg _⟩

/-- Witness for C9 at concrete instants 3 and 10. -/
theorem C9_witness :
    excluded sampleInner heyReq.path = false
    ∧ drainBody heyReq.payload = some [1, 2, 3]
    ∧ (3 : Nat) ≤ 10
    ∧ (∀ i d, Event.ended i d
          ∈ (call sampleInner sampleSvc 3 10 42 heyReq).trace →
        d.elapsed = 10 - 3
        ∧ (d.elapsed : Int) = (10 : Int) - (3 : Int)
        ∧ 0 ≤ (d.elapsed : Int)) :=
  ⟨by decide, by decide, by decide,
   C9_elapsed_nonneg sampleInner sampleSvc 3 10 42 heyReq [1, 2, 3]
     (by decide) (by decide) (by decide)⟩

/-- C10: each observer's start record carries its own freshly cloned
buffer (`handler_body.clone()` per observer, src/lib.rs line 193): all the
per-observer buffers are distinct allocations holding the drained body, so
overwriting the copy handed to observer `i` leaves the copy of every other
observer `j` unchanged, and the payload reattached to the request wraps the
frozen (immutable) bytes, which still read out to the original body. -/
theorem C10_independent_copies (body newContent : List Nat) (n i j : Nat)
    (hij : i ≠ j) (hi : i < n) (hj : j < n) :
    (distributeBody body n).store.read
        ((distributeBody body n).observerBufs.getD j 0) = body
    ∧ (((distributeBody body n).store.write
          ((distributeBody body n).observerBufs.getD i 0) newContent).read
        ((distributeBody body n).observerBufs.getD j 0))
      = (distributeBody body n).store.read
          ((distributeBody body n).observerBufs.getD j 0)
    ∧ (distributeBody body n).frozenPayload = body
    ∧ drainBody ((get_payload (distributeBody body n).frozenPayload).asStream)
        = some body := by
  have hspec := distributeBody_spec body n
  have hgi : (distributeBody body n).observerBufs.getD i 0 = 2 + i := by
    rw [hspec]
    exact getD_map_range n i _ 0 hi
  have hgj : (distributeBody body n).observerBufs.getD j 0 = 2 + j := by
    rw [hspec]
    exact getD_map_range n j _ 0 hj
  have hread : (distributeBody body n).store.read (2 + j) = body := by
    rw [hspec]
    simp only [BufStore.read]
    have h2 : (2 : Nat) + j = j + 1 + 1 := by omega
    rw [h2, List.getD_cons_succ, List.getD_cons_succ,
      List.getD_eq_getElem?_getD, List.getElem?_replicate]
    simp [hj]
  refine ⟨?_, ?_, ?_, ?_⟩
  · rw [hgj]
    exact hread
  · rw [hgi, hgj]
    exact read_write_ne _ (2 + i) (2 + j) newContent (by omega)
  · rw [hspec]
  · rw [hspec]
    exact drainBody_get_payload body

/-- Witness for C10: two observers, mutation of the first observer's copy
leaves the second observer's copy and the repacked payload intact. -/
theorem C10_witness :
    (0 : Nat) ≠ 1
    ∧ (0 : Nat) < 2
    ∧ (1 : Nat) < 2
    ∧ ((distributeBody [1, 2, 3] 2).store.read
          ((distributeBody [1, 2, 3] 2).observerBufs.getD 1 0) = [1, 2, 3]
       ∧ (((distributeBody [1, 2, 3] 2).store.write
             ((distributeBody [1, 2, 3] 2).observerBufs.getD 0 0) [9]).read
           ((distributeBody [1, 2, 3] 2).observerBufs.getD 1 0))
         = (distributeBody [1, 2, 3] 2).store.read
             ((distributeBody [1, 2, 3] 2).observerBufs.getD 1 0)
       ∧ (distributeBody [1, 2, 3] 2).frozenPayload = [1, 2, 3]
       ∧ drainBody ((get_payload (distributeBody [1, 2, 3] 2).frozenPayload).asStream)
           = some [1, 2, 3]) :=
  ⟨by decide, by decide, by decide,
   C10_independent_copies [1, 2, 3] [9] 2 0 1 (by decide) (by decide) (by decide)⟩

end ActixRequestHook
